import Mathlib

/-!
Shallow embedding of the b4pdatabase client logic
(`src/components/ui/sonner.tsx` — `MedicalSuppliesPage` — and
`src/pages/AdminUsersPage.tsx`).

Modelling conventions:
* TypeScript `Partial` fields and nullable database columns become `Option`.
* JavaScript truthiness-based defaulting `x || d` becomes `jsOrStr` / `jsOrInt` /
  `jsOrBool` (empty string, `0` and `false` count as falsy); the nullish
  coalescing operator `x ?? d` becomes `Option.getD`.
* JavaScript `String.prototype.trim()` used only as a truthiness test
  (`!q.trim()`) becomes `jsBlank`; `toLowerCase()` + `includes()` becomes
  `jsIncludes` on char lists.
* TypeScript `number` fields are modelled as `Int` (none of the verified code
  performs arithmetic on them; they are only copied, defaulted and compared
  to zero).
* Remote calls (Supabase queries, the storage upload, RPCs) are modelled by an
  environment record holding each call's outcome; the event handlers become
  pure functions from the environment and the component state to an outcome
  record listing the resulting state, the calls issued (in order) and the
  toast notices raised.
-/

/-- JavaScript `x || d` for an optional string: `undefined`/`null` and `""` fall
back to the default. -/
def jsOrStr (x : Option String) (d : String) : String :=
  match x with
  | none => d
  | some s => if s.isEmpty then d else s

/-- JavaScript `x || d` for an optional number: `undefined`/`null` and `0` fall
back to the default. -/
def jsOrInt (x : Option Int) (d : Int) : Int :=
  match x with
  | none => d
  | some n => if n = 0 then d else n

/-- JavaScript `x || d` for an optional boolean: `undefined`/`null` and `false`
fall back to the default. -/
def jsOrBool (x : Option Bool) (d : Bool) : Bool :=
  match x with
  | none => d
  | some b => if b then b else d

/-- JavaScript truthiness of an optional string (`!x` is true when the value is
absent or empty). -/
def truthyStr (x : Option String) : Bool :=
  match x with
  | none => false
  | some s => !s.isEmpty

/-- JavaScript truthiness of an optional number (`!x` is true when the value is
absent or exactly `0`). -/
def truthyInt (x : Option Int) : Bool :=
  match x with
  | none => false
  | some n => !(n = 0)

/-- Embedding of the JavaScript test `!s.trim()`: true iff the string is empty
or consists only of whitespace. -/
def jsBlank (s : String) : Bool :=
  s.data.all Char.isWhitespace

/-- Embedding of `hay.toLowerCase().includes(needle.toLowerCase())`:
case-insensitive substring containment. -/
def jsIncludes (hay needle : String) : Bool :=
  decide ((needle.data.map Char.toLower) <:+: (hay.data.map Char.toLower))

/-- The `SupplyItem` interface of `MedicalSuppliesPage` (sonner.tsx lines
141–162): the in-memory view-model record. -/
structure SupplyItem where
  id : String
  name : String
  description : String
  lotNumber : String
  expiresOn : String
  quantity : Int
  imageUrl : String
  isExpired : Bool
  typeOfSupply : String
  palletLocation : String
  company : String
  cardboardBoxesPerPallet : Int
  unitBoxesPerCardboard : Int
  unitsPerBox : Int
  weightPerCardboardBox : Int
  dimensionsCardboardBox : String
  costPerUnitBox : Int
  costPerCardboardBox : Int
  relevantLink : String
  otherNotes : String
deriving DecidableEq, Repr

/-- The `formData : Partial<SupplyItem>` draft state: every field may be
absent. -/
structure FormData where
  name : Option String := none
  description : Option String := none
  lotNumber : Option String := none
  expiresOn : Option String := none
  quantity : Option Int := none
  imageUrl : Option String := none
  isExpired : Option Bool := none
  typeOfSupply : Option String := none
  palletLocation : Option String := none
  company : Option String := none
  cardboardBoxesPerPallet : Option Int := none
  unitBoxesPerCardboard : Option Int := none
  unitsPerBox : Option Int := none
  weightPerCardboardBox : Option Int := none
  dimensionsCardboardBox : Option String := none
  costPerUnitBox : Option Int := none
  costPerCardboardBox : Option Int := none
  relevantLink : Option String := none
  otherNotes : Option String := none
deriving DecidableEq, Repr

/-- The required-fields check opening `handleSaveItem` (line 453):
`if (!formData.name || !formData.quantity || !formData.typeOfSupply ||
!formData.expiresOn)` — the submit is rejected when any of the four is
falsy. -/
def validateForSubmit (fd : FormData) : Bool :=
  truthyStr fd.name && truthyInt fd.quantity && truthyStr fd.typeOfSupply &&
    truthyStr fd.expiresOn

/-- The free-text predicate of the filter effect (lines 307–310): blank query
matches everything, otherwise case-insensitive substring match against the
name or the type of supply. -/
def matchesText (q : String) (item : SupplyItem) : Bool :=
  jsBlank q || jsIncludes item.name q || jsIncludes item.typeOfSupply q

/-- The expiry predicate of the filter effect (lines 312–315), matching the
stored `isExpired` flag. -/
def matchesExpiry (ef : String) (item : SupplyItem) : Bool :=
  ef == "all" || (ef == "expired" && item.isExpired) ||
    (ef == "not-expired" && !item.isExpired)

/-- The category predicate of the filter effect (lines 317–319): exact
equality unless the filter is `"all"`. -/
def matchesType (tf : String) (item : SupplyItem) : Bool :=
  tf == "all" || item.typeOfSupply == tf

/-- The filter effect of `MedicalSuppliesPage` (lines 305–325): one pass of
`Array.prototype.filter` with the three predicates conjoined. -/
def filterItems (items : List SupplyItem) (q ef tf : String) : List SupplyItem :=
  items.filter (fun item => matchesText q item && matchesExpiry ef item && matchesType tf item)

/-- A toast notice raised through the `sonner` toast API. -/
inductive Toast where
  | error (msg : String)
  | success (msg : String)
deriving DecidableEq, Repr

/-- The snake_case payload `databaseData` sent to the `medical_supplies`
table (lines 470–490). -/
structure DbPayload where
  name : String
  description : String
  lot_number : String
  expires_on : String
  quantity : Int
  image_url : String
  is_expired : Bool
  type_of_supply : String
  pallet_location : String
  company : String
  cardboard_boxes_per_pallet : Int
  unit_boxes_per_cardboard : Int
  units_per_box : Int
  weight_per_cardboard_box : Int
  dimensions_cardboard_box : String
  cost_per_unit_box : Int
  cost_per_cardboard_box : Int
  relevant_link : String
  other_notes : String
deriving DecidableEq, Repr

/-- Building `databaseData` from the draft and the computed `imageUrl`
variable (lines 470–490). The four required fields have been checked truthy
already and pass through; optional fields use the `||` defaults of the
source. -/
def databaseData (fd : FormData) (imageUrl : String) : DbPayload :=
  { name := fd.name.getD ""
    description := jsOrStr fd.description ""
    lot_number := jsOrStr fd.lotNumber ""
    expires_on := fd.expiresOn.getD ""
    quantity := jsOrInt fd.quantity 0
    image_url := imageUrl
    is_expired := jsOrBool fd.isExpired false
    type_of_supply := fd.typeOfSupply.getD ""
    pallet_location := jsOrStr fd.palletLocation ""
    company := jsOrStr fd.company ""
    cardboard_boxes_per_pallet := jsOrInt fd.cardboardBoxesPerPallet 0
    unit_boxes_per_cardboard := jsOrInt fd.unitBoxesPerCardboard 0
    units_per_box := jsOrInt fd.unitsPerBox 0
    weight_per_cardboard_box := jsOrInt fd.weightPerCardboardBox 0
    dimensions_cardboard_box := jsOrStr fd.dimensionsCardboardBox ""
    cost_per_unit_box := jsOrInt fd.costPerUnitBox 0
    cost_per_cardboard_box := jsOrInt fd.costPerCardboardBox 0
    relevant_link := jsOrStr fd.relevantLink ""
    other_notes := jsOrStr fd.otherNotes "" }

/-- A row returned by `.select()` from an insert or update on
`medical_supplies`. The echoed row carries the identity assigned by the store
and the `name` written by the payload (always a string, since the validated
draft supplies one); every other column may be null. -/
structure StoredRow where
  id : String
  name : String
  description : Option String := none
  lot_number : Option String := none
  expires_on : Option String := none
  quantity : Option Int := none
  image_url : Option String := none
  is_expired : Option Bool := none
  type_of_supply : Option String := none
  pallet_location : Option String := none
  company : Option String := none
  cardboard_boxes_per_pallet : Option Int := none
  unit_boxes_per_cardboard : Option Int := none
  units_per_box : Option Int := none
  weight_per_cardboard_box : Option Int := none
  dimensions_cardboard_box : Option String := none
  cost_per_unit_box : Option Int := none
  cost_per_cardboard_box : Option Int := none
  relevant_link : Option String := none
  other_notes : Option String := none
deriving DecidableEq, Repr

/-- Rebuilding the local item from the row echoed by the edit-mode update
(lines 509–530). Note `expires_on` falls back to `""` here, unlike the
fetch transform. -/
def rowToItemEdit (r : StoredRow) : SupplyItem :=
  { id := r.id
    name := r.name
    description := jsOrStr r.description ""
    lotNumber := jsOrStr r.lot_number ""
    expiresOn := jsOrStr r.expires_on ""
    quantity := jsOrInt r.quantity 0
    imageUrl := jsOrStr r.image_url "/logo.png"
    isExpired := jsOrBool r.is_expired false
    typeOfSupply := jsOrStr r.type_of_supply ""
    palletLocation := jsOrStr r.pallet_location ""
    company := jsOrStr r.company ""
    cardboardBoxesPerPallet := jsOrInt r.cardboard_boxes_per_pallet 0
    unitBoxesPerCardboard := jsOrInt r.unit_boxes_per_cardboard 0
    unitsPerBox := jsOrInt r.units_per_box 0
    weightPerCardboardBox := jsOrInt r.weight_per_cardboard_box 0
    dimensionsCardboardBox := jsOrStr r.dimensions_cardboard_box ""
    costPerUnitBox := jsOrInt r.cost_per_unit_box 0
    costPerCardboardBox := jsOrInt r.cost_per_cardboard_box 0
    relevantLink := jsOrStr r.relevant_link ""
    otherNotes := jsOrStr r.other_notes "" }

/-- Building the new local item from the row echoed by the create-mode insert
(lines 600–621); `imageUrl` is set from the separately computed
`finalImageUrl`. -/
def rowToItemNew (r : StoredRow) (finalImageUrl : String) : SupplyItem :=
  { rowToItemEdit r with imageUrl := finalImageUrl }

/-- The fallback local item built when the edit-mode update succeeds but
returns no row (lines 531–552): the draft's set fields are merged over the
previous item's values with `??` (and `||` for `name`), under the existing
identity. -/
def mergeFallback (fd : FormData) (it : SupplyItem) : SupplyItem :=
  { id := it.id
    name := jsOrStr fd.name it.name
    description := fd.description.getD it.description
    lotNumber := fd.lotNumber.getD it.lotNumber
    expiresOn := fd.expiresOn.getD it.expiresOn
    quantity := fd.quantity.getD it.quantity
    imageUrl := fd.imageUrl.getD it.imageUrl
    isExpired := fd.isExpired.getD it.isExpired
    typeOfSupply := fd.typeOfSupply.getD it.typeOfSupply
    palletLocation := fd.palletLocation.getD it.palletLocation
    company := fd.company.getD it.company
    cardboardBoxesPerPallet := fd.cardboardBoxesPerPallet.getD it.cardboardBoxesPerPallet
    unitBoxesPerCardboard := fd.unitBoxesPerCardboard.getD it.unitBoxesPerCardboard
    unitsPerBox := fd.unitsPerBox.getD it.unitsPerBox
    weightPerCardboardBox := fd.weightPerCardboardBox.getD it.weightPerCardboardBox
    dimensionsCardboardBox := fd.dimensionsCardboardBox.getD it.dimensionsCardboardBox
    costPerUnitBox := fd.costPerUnitBox.getD it.costPerUnitBox
    costPerCardboardBox := fd.costPerCardboardBox.getD it.costPerCardboardBox
    relevantLink := fd.relevantLink.getD it.relevantLink
    otherNotes := fd.otherNotes.getD it.otherNotes }

/-- One remote call issued during a submit, in issue order. `patchImage` is
the follow-up `update({ image_url })` of the create-with-image flow;
`refetch` is the consistency refetch taken when the insert echoes no row. -/
inductive Call where
  | insertRow (p : DbPayload)
  | updateRow (p : DbPayload) (id : String)
  | patchImage (url : String) (id : String)
  | upload (itemId : Option String)
  | refetch
deriving DecidableEq, Repr

/-- A call that writes to the `medical_supplies` table. -/
def isPersistenceCall : Call → Bool
  | Call.insertRow _ => true
  | Call.updateRow _ _ => true
  | Call.patchImage _ _ => true
  | _ => false

/-- Outcomes the remote collaborators would produce for each call a submit
may issue. `patchResult` is the outcome of the follow-up image-URL update;
the source awaits that call without reading its result. -/
structure RemoteEnv where
  uploadResult : Option String := none
  updateResult : Except Unit (Option StoredRow) := Except.ok none
  insertResult : Except Unit (Option StoredRow) := Except.ok none
  patchResult : Except Unit Unit := Except.ok ()
  refetched : List SupplyItem := []
deriving Repr

/-- The observable outcome of one `handleSaveItem` run: the resulting local
collection, the remote calls issued in order, the toasts raised in order,
and whether the edit/new modal is still open afterwards. -/
structure SaveOutcome where
  items : List SupplyItem
  calls : List Call
  toasts : List Toast
  modalOpen : Bool
deriving Repr

/-- The `handleSaveItem` handler (lines 451–639) as a pure function of the
remote environment and the component state (`formData`, whether an image
file is attached, `editingItem`, and the current `items` collection). -/
def handleSaveItem (env : RemoteEnv) (fd : FormData) (imageFile : Bool)
    (editingItem : Option SupplyItem) (items : List SupplyItem) : SaveOutcome :=
  if validateForSubmit fd then
    match editingItem with
    | some it =>
      -- Edit mode: upload first when a new image file is attached (lines 458–468)
      let pre : String × List Call × List Toast :=
        if imageFile then
          match env.uploadResult with
          | some url => (url, [Call.upload (some it.id)], [])
          | none => (it.imageUrl, [Call.upload (some it.id)],
              [Toast.error "Failed to upload image"])
        else (jsOrStr fd.imageUrl "/logo.png", [], [])
      let p := databaseData fd pre.1
      match env.updateResult with
      | Except.error _ =>
        { items := items
          calls := pre.2.1 ++ [Call.updateRow p it.id]
          toasts := pre.2.2 ++ [Toast.error "Failed to update item"]
          modalOpen := true }
      | Except.ok r =>
        let updatedItem : SupplyItem :=
          match r with
          | some row => rowToItemEdit row
          | none => mergeFallback fd it
        { items := items.map fun i => if i.id = updatedItem.id then updatedItem else i
          calls := pre.2.1 ++ [Call.updateRow p it.id]
          toasts := pre.2.2 ++ [Toast.success "Item updated successfully!"]
          modalOpen := false }
    | none =>
      -- Create mode (lines 556–625)
      let imageUrl := jsOrStr fd.imageUrl "/logo.png"
      let tempImageUrl := if imageFile then "/logo.png" else imageUrl
      let p := { databaseData fd imageUrl with image_url := tempImageUrl }
      match env.insertResult with
      | Except.error _ =>
        { items := items
          calls := [Call.insertRow p]
          toasts := [Toast.error "Failed to create item"]
          modalOpen := true }
      | Except.ok none =>
        -- The API returned no row: refetch to stay consistent (line 582)
        { items := env.refetched
          calls := [Call.insertRow p, Call.refetch]
          toasts := [Toast.success "Item created successfully!"]
          modalOpen := false }
      | Except.ok (some row) =>
        if imageFile then
          match env.uploadResult with
          | some url =>
            { items := rowToItemNew row url :: items
              calls := [Call.insertRow p, Call.upload (some row.id),
                Call.patchImage url row.id]
              toasts := [Toast.success "Item created successfully!"]
              modalOpen := false }
          | none =>
            { items := rowToItemNew row (jsOrStr row.image_url "/logo.png") :: items
              calls := [Call.insertRow p, Call.upload (some row.id)]
              toasts := [Toast.error "Failed to upload image",
                Toast.success "Item created successfully!"]
              modalOpen := false }
        else
          { items := rowToItemNew row (jsOrStr row.image_url "/logo.png") :: items
            calls := [Call.insertRow p]
            toasts := [Toast.success "Item created successfully!"]
            modalOpen := false }
  else
    { items := items
      calls := []
      toasts := [Toast.error "Please fill in all required fields"]
      modalOpen := true }

/-- A row of the `medical_supplies` table as returned by the full-scan fetch
(lines 247–249): the store assigns `id`; every other column may be null. -/
structure FetchedRow where
  id : String
  name : Option String := none
  description : Option String := none
  lot_number : Option String := none
  expires_on : Option String := none
  quantity : Option Int := none
  image_url : Option String := none
  is_expired : Option Bool := none
  type_of_supply : Option String := none
  pallet_location : Option String := none
  company : Option String := none
  cardboard_boxes_per_pallet : Option Int := none
  unit_boxes_per_cardboard : Option Int := none
  units_per_box : Option Int := none
  weight_per_cardboard_box : Option Int := none
  dimensions_cardboard_box : Option String := none
  cost_per_unit_box : Option Int := none
  cost_per_cardboard_box : Option Int := none
  relevant_link : Option String := none
  other_notes : Option String := none
deriving DecidableEq, Repr

/-- The runtime shape of the record produced by the fetch transform
(lines 265–286). The transform assigns `name: item.name` with no fallback,
so an absent stored name stays absent at runtime (despite the `SupplyItem`
annotation); every other field is defaulted. -/
structure ViewItem where
  id : String
  name : Option String
  description : String
  lotNumber : String
  expiresOn : String
  quantity : Int
  imageUrl : String
  isExpired : Bool
  typeOfSupply : String
  palletLocation : String
  company : String
  cardboardBoxesPerPallet : Int
  unitBoxesPerCardboard : Int
  unitsPerBox : Int
  weightPerCardboardBox : Int
  dimensionsCardboardBox : String
  costPerUnitBox : Int
  costPerCardboardBox : Int
  relevantLink : String
  otherNotes : String
deriving DecidableEq, Repr

/-- The per-row transform of `fetchItems` (lines 265–286), mapping a stored
row to the in-memory record. `name` is copied through unchanged; `expires_on`
falls back to `"2025-12-31"` here. -/
def toViewModel (r : FetchedRow) : ViewItem :=
  { id := r.id
    name := r.name
    description := jsOrStr r.description ""
    lotNumber := jsOrStr r.lot_number ""
    expiresOn := jsOrStr r.expires_on "2025-12-31"
    quantity := jsOrInt r.quantity 0
    imageUrl := jsOrStr r.image_url "/logo.png"
    isExpired := jsOrBool r.is_expired false
    typeOfSupply := jsOrStr r.type_of_supply ""
    palletLocation := jsOrStr r.pallet_location ""
    company := jsOrStr r.company ""
    cardboardBoxesPerPallet := jsOrInt r.cardboard_boxes_per_pallet 0
    unitBoxesPerCardboard := jsOrInt r.unit_boxes_per_cardboard 0
    unitsPerBox := jsOrInt r.units_per_box 0
    weightPerCardboardBox := jsOrInt r.weight_per_cardboard_box 0
    dimensionsCardboardBox := jsOrStr r.dimensions_cardboard_box ""
    costPerUnitBox := jsOrInt r.cost_per_unit_box 0
    costPerCardboardBox := jsOrInt r.cost_per_cardboard_box 0
    relevantLink := jsOrStr r.relevant_link ""
    otherNotes := jsOrStr r.other_notes "" }

/-- Outcomes of the two queries made by the role fetch of
`MedicalSuppliesPage` (lines 194–239): the session's user id (absent or empty
when unauthenticated), the `user_roles` rows (each carrying a nullable
`role_id`), and the `roles` rows (their `role_name` strings). -/
structure RolesEnv where
  sessionUserId : Option String := none
  userRolesResult : Except Unit (List (Option String)) := Except.ok []
  rolesResult : Except Unit (List String) := Except.ok []
deriving Repr

/-- The `fetchUserRoles` effect (lines 194–239): the role-name list the
component ends up storing. Every failure path — missing/empty identity, a
failed `user_roles` query, no non-null role ids, a failed `roles` query —
stores the empty list. -/
def fetchUserRoles (env : RolesEnv) : List String :=
  if truthyStr env.sessionUserId then
    match env.userRolesResult with
    | Except.error _ => []
    | Except.ok rows =>
      -- roleIds = rows.map(r => r.role_id).filter(Boolean)
      let roleIds := rows.filterMap fun x =>
        match x with
        | some s => if s.isEmpty then none else some s
        | none => none
      if roleIds.isEmpty then []
      else
        match env.rolesResult with
        | Except.error _ => []
        | Except.ok rolesRows => rolesRows
  else []

/-- Derived capability (line 183): `canManage = userRoles.includes("admin") ||
userRoles.includes("volunteer")`. -/
def canManage (userRoles : List String) : Bool :=
  userRoles.contains "admin" || userRoles.contains "volunteer"

/-- Derived capability (line 184): `isAdmin = userRoles.includes("admin")`. -/
def isAdmin (userRoles : List String) : Bool :=
  userRoles.contains "admin"

/-- The `AdminUserRow` type of `AdminUsersPage` (lines 12–16). -/
structure AdminUserRow where
  user_id : String
  email : String
  roles : List String
deriving DecidableEq, Repr

/-- The `currentRoleOf` helper of `AdminUsersPage` (lines 130–136): the
precedence winner among the row's role names, admin > volunteer > visitor,
empty string when none of the three is present. -/
def currentRoleOf (row : AdminUserRow) : String :=
  if row.roles.contains "admin" then "admin"
  else if row.roles.contains "volunteer" then "volunteer"
  else if row.roles.contains "visitor" then "visitor"
  else ""

/-- The observable outcome of one `handleSaveRole` run. -/
structure RoleSaveOutcome where
  users : List AdminUserRow
  toasts : List Toast
deriving DecidableEq, Repr

/-- The `handleSaveRole` handler of `AdminUsersPage` (lines 162–193) as a pure
function: `rpcOk` is whether the `admin_set_single_role` RPC succeeded and
`pendingRole` is the selection stored for the target user. -/
def handleSaveRole (rpcOk : Bool) (pendingRole : Option String)
    (userId : String) (users : List AdminUserRow) : RoleSaveOutcome :=
  if truthyStr pendingRole then
    let roleName := pendingRole.getD ""
    if rpcOk then
      { users := users.map fun u =>
          if u.user_id = userId then { u with roles := [roleName] } else u
        toasts := [Toast.success "Role updated"] }
    else
      { users := users, toasts := [Toast.error "Failed to update role"] }
  else
    { users := users, toasts := [Toast.error "Please select a role first"] }

/-- A nonempty string is not `isEmpty` (bridge between the Bool test and
propositional inequality). -/
theorem isEmpty_false_of_ne (s : String) (h : s ≠ "") : s.isEmpty = false := by
  cases hb : s.isEmpty
  · rfl
  · exact absurd ((String.isEmpty_iff s).mp hb) h

/-- The empty string is `isEmpty`. -/
theorem empty_isEmpty : ("" : String).isEmpty = true := by decide

/-- A valid draft used as a concrete fixture: the four required fields are
set, everything else is left undefined except the placeholder image the new
item modal seeds. -/
def fd0 : FormData :=
  { name := some "Gauze", quantity := some 5, typeOfSupply := some "Wound Care",
    expiresOn := some "2026-01-01", imageUrl := some "/logo.png" }

/-- A concrete in-memory item used as a fixture. -/
def item0 : SupplyItem :=
  { id := "it-1", name := "Mask", description := "box of masks", lotNumber := "L1",
    expiresOn := "2025-01-01", quantity := 3, imageUrl := "/img/old.png",
    isExpired := false, typeOfSupply := "PPE", palletLocation := "A1",
    company := "Acme", cardboardBoxesPerPallet := 2, unitBoxesPerCardboard := 4,
    unitsPerBox := 10, weightPerCardboardBox := 1, dimensionsCardboardBox := "30x20x15",
    costPerUnitBox := 2, costPerCardboardBox := 8, relevantLink := "", otherNotes := "" }

/-- A concrete row echoed by the store for a freshly inserted record. -/
def row0 : StoredRow :=
  { id := "new-1", name := "Gauze", image_url := some "/logo.png" }

/-- C3: for every item list and every combination of query, expiry filter and
category filter, the filter is the single stable pass with the three
predicates conjoined, its result is a subsequence of the input (relative
order preserved), a blank query together with both filters at `"all"` returns
the input unchanged, and in particular the empty query with both filters at
`"all"` is the identity. -/
theorem C3_filter_stable_subsequence (items : List SupplyItem) (q ef tf : String) :
    filterItems items q ef tf =
      items.filter (fun item =>
        matchesText q item && matchesExpiry ef item && matchesType tf item) ∧
    (filterItems items q ef tf).Sublist items ∧
    (jsBlank q = true → filterItems items q "all" "all" = items) ∧
    filterItems items "" "all" "all" = items := by
  have hall : ∀ (q' : String), jsBlank q' = true →
      filterItems items q' "all" "all" = items := by
    intro q' hq
    apply List.filter_eq_self.mpr
    intro a _
    simp [matchesText, matchesExpiry, matchesType, hq]
  exact ⟨rfl, List.filter_sublist items, hall q, hall "" (by decide)⟩

/-- C3 witness: concrete hypotheses and evaluations for the filter facts. -/
theorem C3_filter_stable_subsequence_witness :
    jsBlank " " = true ∧ filterItems [item0] " " "all" "all" = [item0] ∧
      (filterItems [item0] "ask" "all" "PPE").Sublist [item0] :=
  ⟨by decide, (C3_filter_stable_subsequence [item0] " " "all" "all").2.2.1 (by decide),
    (C3_filter_stable_subsequence [item0] "ask" "all" "PPE").2.1⟩

/-- C5: the submit validation rejects a draft whose name, quantity, type of
supply or expiration date is absent, empty or zero — in particular a
quantity of exactly 0 — and accepts a draft with all four fields present,
non-empty and with nonzero quantity. -/
theorem C5_validateForSubmit_required_fields (fd : FormData) :
    ((fd.name = none ∨ fd.name = some "") → validateForSubmit fd = false) ∧
    ((fd.quantity = none ∨ fd.quantity = some 0) → validateForSubmit fd = false) ∧
    ((fd.typeOfSupply = none ∨ fd.typeOfSupply = some "") → validateForSubmit fd = false) ∧
    ((fd.expiresOn = none ∨ fd.expiresOn = some "") → validateForSubmit fd = false) ∧
    (∀ nm qn ty ex, fd.name = some nm → nm ≠ "" → fd.quantity = some qn → qn ≠ 0 →
      fd.typeOfSupply = some ty → ty ≠ "" → fd.expiresOn = some ex → ex ≠ "" →
      validateForSubmit fd = true) := by
  refine ⟨?_, ?_, ?_, ?_, ?_⟩
  · rintro (h | h) <;> simp [validateForSubmit, truthyStr, h, empty_isEmpty]
  · rintro (h | h) <;> simp [validateForSubmit, truthyInt, h]
  · rintro (h | h) <;> simp [validateForSubmit, truthyStr, h, empty_isEmpty]
  · rintro (h | h) <;> simp [validateForSubmit, truthyStr, h, empty_isEmpty]
  · intro nm qn ty ex h1 h2 h3 h4 h5 h6 h7 h8
    simp [validateForSubmit, truthyStr, truthyInt, h1, h3, h5, h7,
      isEmpty_false_of_ne _ h2, isEmpty_false_of_ne _ h6, isEmpty_false_of_ne _ h8, h4]

/-- C5 witness: the zero-quantity draft is rejected and the valid fixture
draft is accepted. -/
theorem C5_validateForSubmit_required_fields_witness :
    validateForSubmit { fd0 with quantity := some 0 } = false ∧
      validateForSubmit fd0 = true :=
  ⟨(C5_validateForSubmit_required_fields { fd0 with quantity := some 0 }).2.1
      (Or.inr rfl),
    (C5_validateForSubmit_required_fields fd0).2.2.2.2 "Gauze" 5 "Wound Care"
      "2026-01-01" rfl (by decide) rfl (by decide) rfl (by decide) rfl (by decide)⟩

/-- C6 counterexample: a stored row with every optional column absent maps to
a record whose `name` is still absent — the fetch transform applies no
default to `name`, so it does not become the documented `""`. -/
theorem C6_counterexample :
    (toViewModel { id := "r-1" }).name = none ∧ (none : Option String) ≠ some "" := by
  exact ⟨rfl, by decide⟩

/-- C6 (amended): on a stored row with optional fields absent the fetch
transform substitutes the documented defaults for quantity (0), expiration
date ("2025-12-31"), image reference (the placeholder) and the expired flag
(false), while `name` is copied through unchanged (no default is applied to
it); the transform is a total function, so it never fails on absent
input. -/
theorem C6_defaults_except_name (r : FetchedRow) :
    (r.quantity = none → (toViewModel r).quantity = 0) ∧
    (r.expires_on = none → (toViewModel r).expiresOn = "2025-12-31") ∧
    (r.image_url = none → (toViewModel r).imageUrl = "/logo.png") ∧
    (r.is_expired = none → (toViewModel r).isExpired = false) ∧
    (toViewModel r).name = r.name := by
  refine ⟨?_, ?_, ?_, ?_, rfl⟩ <;>
    intro h <;> simp [toViewModel, h, jsOrStr, jsOrInt, jsOrBool]

/-- C6 witness: the amended defaults evaluated on the concrete all-absent
row. -/
theorem C6_defaults_except_name_witness :
    (toViewModel { id := "r-1" }).quantity = 0 ∧
      (toViewModel { id := "r-1" }).expiresOn = "2025-12-31" ∧
      (toViewModel { id := "r-1" }).imageUrl = "/logo.png" ∧
      (toViewModel { id := "r-1" }).isExpired = false :=
  ⟨(C6_defaults_except_name { id := "r-1" }).1 rfl,
    (C6_defaults_except_name { id := "r-1" }).2.1 rfl,
    (C6_defaults_except_name { id := "r-1" }).2.2.1 rfl,
    (C6_defaults_except_name { id := "r-1" }).2.2.2.1 rfl⟩

/-- C9: the role gate derives exactly the two booleans `canManage` (admin or
volunteer present) and `isAdmin` (admin present) from the fetched role-name
list, and every failure of the role fetch — falsy identity, a failed
`user_roles` query, no role rows, a failed `roles` query — stores the empty
role set, under which both booleans are false (fail-closed). -/
theorem C9_role_gate_fail_closed (env : RolesEnv) (roles : List String) :
    (canManage roles = true ↔ ("admin" ∈ roles ∨ "volunteer" ∈ roles)) ∧
    (isAdmin roles = true ↔ "admin" ∈ roles) ∧
    (truthyStr env.sessionUserId = false → fetchUserRoles env = []) ∧
    (env.userRolesResult = Except.error () → fetchUserRoles env = []) ∧
    (env.userRolesResult = Except.ok [] → fetchUserRoles env = []) ∧
    (env.rolesResult = Except.error () → fetchUserRoles env = []) ∧
    (canManage [] = false ∧ isAdmin [] = false) := by
  refine ⟨?_, ?_, ?_, ?_, ?_, ?_, by decide⟩
  · simp [canManage]
  · simp [isAdmin]
  · intro h; simp [fetchUserRoles, h]
  · intro h
    by_cases hs : truthyStr env.sessionUserId <;> simp [fetchUserRoles, h, hs]
  · intro h
    by_cases hs : truthyStr env.sessionUserId <;> simp [fetchUserRoles, h, hs]
  · intro h
    by_cases hs : truthyStr env.sessionUserId
    · simp only [fetchUserRoles, hs, if_true]
      cases hur : env.userRolesResult with
      | error e => rfl
      | ok rows =>
        by_cases hids : (rows.filterMap fun x =>
            match x with
            | some s => if s.isEmpty then none else some s
            | none => none).isEmpty <;> simp [hids, h]
    · simp [fetchUserRoles, hs]

/-- A fixture role-fetch environment whose `user_roles` query fails for an
authenticated identity. -/
def envRolesErr : RolesEnv :=
  { sessionUserId := some "u-1", userRolesResult := Except.error ()
    rolesResult := Except.ok ["admin"] }

/-- C9 witness: a failed `user_roles` query for an authenticated identity
yields the empty role set and both capability booleans false. -/
theorem C9_role_gate_fail_closed_witness :
    envRolesErr.userRolesResult = Except.error () ∧
    fetchUserRoles envRolesErr = [] ∧
    (canManage [] = false ∧ isAdmin [] = false) :=
  ⟨rfl, (C9_role_gate_fail_closed envRolesErr []).2.2.2.1 rfl,
    (C9_role_gate_fail_closed envRolesErr []).2.2.2.2.2.2⟩

/-- C8: the displayed current role is the precedence winner (admin >
volunteer > visitor) of the row's role names — in particular a row holding
both volunteer and admin shows "admin" — and a successful role save replaces
the target user's local role set with exactly `[roleName]` (never old and new
together), while a failed save leaves the local users list unchanged. -/
theorem C8_role_precedence_atomic_replace (row : AdminUserRow)
    (pendingRole : Option String) (userId roleName : String)
    (users : List AdminUserRow) :
    (row.roles.contains "admin" = true → currentRoleOf row = "admin") ∧
    (row.roles.contains "admin" = false → row.roles.contains "volunteer" = true →
      currentRoleOf row = "volunteer") ∧
    (row.roles.contains "admin" = false → row.roles.contains "volunteer" = false →
      row.roles.contains "visitor" = true → currentRoleOf row = "visitor") ∧
    (pendingRole = some roleName → roleName ≠ "" →
      (handleSaveRole true pendingRole userId users).users =
        users.map (fun u =>
          if u.user_id = userId then { u with roles := [roleName] } else u)) ∧
    (pendingRole = some roleName → roleName ≠ "" →
      ∀ u, u ∈ (handleSaveRole true pendingRole userId users).users →
        u.user_id = userId → u.roles = [roleName]) ∧
    ((handleSaveRole false pendingRole userId users).users = users) := by
  refine ⟨?_, ?_, ?_, ?_, ?_, ?_⟩
  · intro h
    have h' : "admin" ∈ row.roles := by simpa using h
    simp [currentRoleOf, h']
  · intro h1 h2
    have h1' : "admin" ∉ row.roles := by simpa using h1
    have h2' : "volunteer" ∈ row.roles := by simpa using h2
    simp [currentRoleOf, h1', h2']
  · intro h1 h2 h3
    have h1' : "admin" ∉ row.roles := by simpa using h1
    have h2' : "volunteer" ∉ row.roles := by simpa using h2
    have h3' : "visitor" ∈ row.roles := by simpa using h3
    simp [currentRoleOf, h1', h2', h3']
  · intro hp hne
    simp [handleSaveRole, hp, truthyStr, isEmpty_false_of_ne _ hne]
  · intro hp hne u hu hid
    rw [show (handleSaveRole true pendingRole userId users).users =
        users.map (fun u =>
          if u.user_id = userId then { u with roles := [roleName] } else u) by
      simp [handleSaveRole, hp, truthyStr, isEmpty_false_of_ne _ hne]] at hu
    obtain ⟨x, _, rfl⟩ := List.mem_map.mp hu
    by_cases hx : x.user_id = userId
    · simp [hx]
    · rw [if_neg hx] at hid
      exact absurd hid hx
  · cases pendingRole with
    | none => rfl
    | some r =>
      by_cases hr : truthyStr (some r) <;> simp [handleSaveRole, hr]

/-- A fixture admin user row holding both the volunteer and the admin
roles. -/
def userRow0 : AdminUserRow :=
  { user_id := "u-7", email := "a@b.c", roles := ["volunteer", "admin"] }

/-- C8 witness: the fixture user with roles {volunteer, admin} shows "admin";
after a successful save of "visitor" the local role set is exactly
["visitor"]; a failed save leaves the list unchanged. -/
theorem C8_role_precedence_atomic_replace_witness :
    currentRoleOf userRow0 = "admin" ∧
    (handleSaveRole true (some "visitor") "u-7" [userRow0]).users =
      [userRow0].map (fun u =>
        if u.user_id = "u-7" then { u with roles := ["visitor"] } else u) ∧
    (handleSaveRole false (some "visitor") "u-7" [userRow0]).users = [userRow0] :=
  ⟨(C8_role_precedence_atomic_replace userRow0 (some "visitor") "u-7" "visitor"
      [userRow0]).1 (by decide),
    (C8_role_precedence_atomic_replace userRow0 (some "visitor") "u-7" "visitor"
      [userRow0]).2.2.2.1 rfl (by decide),
    (C8_role_precedence_atomic_replace userRow0 (some "visitor") "u-7" "visitor"
      [userRow0]).2.2.2.2.2⟩

/-- A stored row echoing an edit-mode update of the fixture item. -/
def row1 : StoredRow :=
  { id := "it-1", name := "Gauze", image_url := some "/img/new.png" }

/-- A fixture environment for the create-with-image happy path: the insert
echoes a row and the upload succeeds. -/
def envC1 : RemoteEnv :=
  { uploadResult := some "https://cdn/img.png", insertResult := Except.ok (some row0) }

/-- A fixture environment in which the only failing persistence call is the
follow-up image-URL patch of the create-with-image flow. -/
def envPatchFail : RemoteEnv :=
  { uploadResult := some "https://cdn/img.png", insertResult := Except.ok (some row0),
    patchResult := Except.error () }

/-- A fixture environment whose edit-mode update fails. -/
def envUpdFail : RemoteEnv := { updateResult := Except.error () }

/-- A fixture environment whose upload fails while the update succeeds
without echoing a row. -/
def envC4 : RemoteEnv := { uploadResult := none, updateResult := Except.ok none }

/-- A fixture environment whose update echoes `row1` and whose insert echoes
`row0`. -/
def envC7 : RemoteEnv :=
  { updateResult := Except.ok (some row1), insertResult := Except.ok (some row0) }

/-- A fixture environment whose update succeeds but echoes no row. -/
def envOkNone : RemoteEnv := { updateResult := Except.ok none }

/-- C1: a create-mode submit with an attached image whose insert echoes the
new row and whose upload succeeds first persists the record with the
placeholder image, then uploads keyed by the newly assigned identity, then
patches the record with the uploaded URL — exactly two persistence calls,
insert then update — and the resulting local record's image reference is the
uploaded object's URL. -/
theorem C1_create_with_image_two_phase (env : RemoteEnv) (fd : FormData)
    (items : List SupplyItem) (row : StoredRow) (url : String)
    (hval : validateForSubmit fd = true)
    (hins : env.insertResult = Except.ok (some row))
    (hup : env.uploadResult = some url) :
    (handleSaveItem env fd true none items).calls =
      [Call.insertRow
          { databaseData fd (jsOrStr fd.imageUrl "/logo.png") with image_url := "/logo.png" },
        Call.upload (some row.id), Call.patchImage url row.id] ∧
    (handleSaveItem env fd true none items).calls.filter isPersistenceCall =
      [Call.insertRow
          { databaseData fd (jsOrStr fd.imageUrl "/logo.png") with image_url := "/logo.png" },
        Call.patchImage url row.id] ∧
    ({ databaseData fd (jsOrStr fd.imageUrl "/logo.png") with
        image_url := "/logo.png" } : DbPayload).image_url = "/logo.png" ∧
    (handleSaveItem env fd true none items).items = rowToItemNew row url :: items ∧
    (rowToItemNew row url).imageUrl = url := by
  refine ⟨?_, ?_, rfl, ?_, ?_⟩
  · simp [handleSaveItem, hval, hins, hup]
  · simp [handleSaveItem, hval, hins, hup, isPersistenceCall]
  · simp [handleSaveItem, hval, hins, hup]
  · simp [rowToItemNew]

/-- C1 witness: the two-phase create evaluated on the concrete fixtures. -/
theorem C1_create_with_image_two_phase_witness :
    validateForSubmit fd0 = true ∧
    (handleSaveItem envC1 fd0 true none []).calls.filter isPersistenceCall =
      [Call.insertRow
          { databaseData fd0 (jsOrStr fd0.imageUrl "/logo.png") with image_url := "/logo.png" },
        Call.patchImage "https://cdn/img.png" row0.id] ∧
    (handleSaveItem envC1 fd0 true none []).items = [rowToItemNew row0 "https://cdn/img.png"] ∧
    (rowToItemNew row0 "https://cdn/img.png").imageUrl = "https://cdn/img.png" :=
  ⟨by decide,
    (C1_create_with_image_two_phase envC1 fd0 [] row0 "https://cdn/img.png"
      (by decide) rfl rfl).2.1,
    (C1_create_with_image_two_phase envC1 fd0 [] row0 "https://cdn/img.png"
      (by decide) rfl rfl).2.2.2.1,
    (C1_create_with_image_two_phase envC1 fd0 [] row0 "https://cdn/img.png"
      (by decide) rfl rfl).2.2.2.2⟩

/-- C2 counterexample: in the create-with-image flow the follow-up image-URL
patch is a persistence call whose result the code ignores; in the concrete
run below that call fails, yet the local collection is mutated, the modal
closes, and only a success notice is shown — refuting the claim that any
persistence failure leaves local state unchanged, surfaces a failure and
keeps the modal open. -/
theorem C2_counterexample :
    envPatchFail.patchResult = Except.error () ∧
    Call.patchImage "https://cdn/img.png" row0.id ∈
      (handleSaveItem envPatchFail fd0 true none [item0]).calls ∧
    (handleSaveItem envPatchFail fd0 true none [item0]).items ≠ [item0] ∧
    (handleSaveItem envPatchFail fd0 true none [item0]).modalOpen = false ∧
    (handleSaveItem envPatchFail fd0 true none [item0]).toasts =
      [Toast.success "Item created successfully!"] := by
  refine ⟨rfl, by decide, by decide, by decide, by decide⟩

/-- C2 (amended): if the primary persistence call of a submit fails — the
update in edit mode, or the insert in create mode — then the local
collection is unchanged, the modal remains open, and an error notice is
surfaced; the handler itself is a total function (the source wraps its body
in try/catch), so no error escapes. The follow-up image-URL patch of the
create-with-image flow is excluded: its result is ignored by the source. -/
theorem C2_primary_failure_preserves_state (env : RemoteEnv) (fd : FormData)
    (imageFile : Bool) (editingItem : Option SupplyItem) (items : List SupplyItem) :
    ((∃ it, editingItem = some it) → env.updateResult = Except.error () →
      (handleSaveItem env fd imageFile editingItem items).items = items ∧
      (handleSaveItem env fd imageFile editingItem items).modalOpen = true ∧
      ∃ m, Toast.error m ∈ (handleSaveItem env fd imageFile editingItem items).toasts) ∧
    (editingItem = none → env.insertResult = Except.error () →
      (handleSaveItem env fd imageFile editingItem items).items = items ∧
      (handleSaveItem env fd imageFile editingItem items).modalOpen = true ∧
      ∃ m, Toast.error m ∈ (handleSaveItem env fd imageFile editingItem items).toasts) := by
  by_cases hval : validateForSubmit fd = true
  · constructor
    · rintro ⟨it, rfl⟩ hupd
      cases imageFile <;> cases hup : env.uploadResult <;>
        exact ⟨by simp [handleSaveItem, hval, hupd, hup],
          by simp [handleSaveItem, hval, hupd, hup],
          ⟨"Failed to update item", by simp [handleSaveItem, hval, hupd, hup]⟩⟩
    · rintro rfl hins
      exact ⟨by simp [handleSaveItem, hval, hins],
        by simp [handleSaveItem, hval, hins],
        ⟨"Failed to create item", by simp [handleSaveItem, hval, hins]⟩⟩
  · constructor <;> intro h1 h2 <;>
      exact ⟨by simp [handleSaveItem, hval], by simp [handleSaveItem, hval],
        ⟨"Please fill in all required fields", by simp [handleSaveItem, hval]⟩⟩

/-- C2 witness: a failed edit-mode update on the concrete fixtures leaves the
collection unchanged, keeps the modal open and raises an error notice. -/
theorem C2_primary_failure_preserves_state_witness :
    (handleSaveItem envUpdFail fd0 false (some item0) [item0]).items = [item0] ∧
    (handleSaveItem envUpdFail fd0 false (some item0) [item0]).modalOpen = true ∧
    ∃ m, Toast.error m ∈ (handleSaveItem envUpdFail fd0 false (some item0) [item0]).toasts :=
  (C2_primary_failure_preserves_state envUpdFail fd0 false (some item0) [item0]).1
    ⟨item0, rfl⟩ rfl

/-- C4: an edit-mode submit with an attached image whose upload fails still
proceeds to the record update, and the payload it persists carries the
existing item's current image reference (the pre-edit value) rather than
failing the whole submit; when the update then succeeds the submit completes
(modal closed) with the upload failure surfaced alongside the update
success. -/
theorem C4_edit_upload_failure_falls_back (env : RemoteEnv) (fd : FormData)
    (it : SupplyItem) (items : List SupplyItem)
    (hval : validateForSubmit fd = true)
    (hup : env.uploadResult = none) :
    (handleSaveItem env fd true (some it) items).calls =
      [Call.upload (some it.id), Call.updateRow (databaseData fd it.imageUrl) it.id] ∧
    (databaseData fd it.imageUrl).image_url = it.imageUrl ∧
    (env.updateResult = Except.ok none →
      (handleSaveItem env fd true (some it) items).modalOpen = false ∧
      (handleSaveItem env fd true (some it) items).toasts =
        [Toast.error "Failed to upload image", Toast.success "Item updated successfully!"]) := by
  refine ⟨?_, rfl, ?_⟩
  · cases hud : env.updateResult <;> simp [handleSaveItem, hval, hup, hud]
  · intro hud
    constructor <;> simp [handleSaveItem, hval, hup, hud]

/-- C4 witness: the failed-upload edit evaluated on the concrete fixtures. -/
theorem C4_edit_upload_failure_falls_back_witness :
    validateForSubmit fd0 = true ∧
    (handleSaveItem envC4 fd0 true (some item0) [item0]).calls =
      [Call.upload (some item0.id),
        Call.updateRow (databaseData fd0 item0.imageUrl) item0.id] ∧
    (databaseData fd0 item0.imageUrl).image_url = item0.imageUrl ∧
    (handleSaveItem envC4 fd0 true (some item0) [item0]).modalOpen = false :=
  ⟨by decide,
    (C4_edit_upload_failure_falls_back envC4 fd0 item0 [item0] (by decide) rfl).1,
    (C4_edit_upload_failure_falls_back envC4 fd0 item0 [item0] (by decide) rfl).2.1,
    ((C4_edit_upload_failure_falls_back envC4 fd0 item0 [item0] (by decide) rfl).2.2
      rfl).1⟩

/-- C7: on a successful submit the local collection is patched in place — in
update mode the entry whose id matches the rebuilt item is replaced and every
other entry is untouched (a positional map), and in create mode with a valid
draft and no image the new record, carrying the placeholder image reference,
is prepended to the front of the collection. -/
theorem C7_local_patch_on_success (env : RemoteEnv) (fd : FormData)
    (imageFile : Bool) (it : SupplyItem) (r : Option StoredRow) (row : StoredRow)
    (items : List SupplyItem)
    (hval : validateForSubmit fd = true) :
    (env.updateResult = Except.ok r →
      (handleSaveItem env fd imageFile (some it) items).items =
        items.map (fun i =>
          if i.id = (match r with
              | some rw => rowToItemEdit rw
              | none => mergeFallback fd it).id
          then (match r with
              | some rw => rowToItemEdit rw
              | none => mergeFallback fd it)
          else i)) ∧
    (env.insertResult = Except.ok (some row) → fd.imageUrl = some "/logo.png" →
      row.image_url = some "/logo.png" →
      (handleSaveItem env fd false none items).items =
        rowToItemNew row "/logo.png" :: items ∧
      (rowToItemNew row "/logo.png").imageUrl = "/logo.png") := by
  constructor
  · intro hud
    cases imageFile <;> cases hup : env.uploadResult <;> cases r <;>
      simp [handleSaveItem, hval, hud, hup]
  · intro hins hfi hri
    constructor
    · simp [handleSaveItem, hval, hins, hfi, hri, jsOrStr]
    · simp [rowToItemNew]

/-- C7 witness: the replace-by-id patch and the create-mode prepend evaluated
on the concrete fixtures. -/
theorem C7_local_patch_on_success_witness :
    validateForSubmit fd0 = true ∧
    (handleSaveItem envC7 fd0 false (some item0) [item0]).items =
      [item0].map (fun i =>
        if i.id = (rowToItemEdit row1).id then rowToItemEdit row1 else i) ∧
    (handleSaveItem envC7 fd0 false none [item0]).items =
      rowToItemNew row0 "/logo.png" :: [item0] :=
  ⟨by decide,
    (C7_local_patch_on_success envC7 fd0 false item0 (some row1) row0 [item0]
      (by decide)).1 rfl,
    ((C7_local_patch_on_success envC7 fd0 false item0 (some row1) row0 [item0]
      (by decide)).2 rfl rfl rfl).1⟩

/-- C10: when the edit-mode update succeeds but echoes no row, the locally
stored item is rebuilt by merging the draft's set fields over the previous
item's values — the collection is patched with that merged item by id, its id
is the existing item's id, and every field the draft left undefined keeps its
pre-edit value. -/
theorem C10_fallback_merge_keeps_unset_fields (env : RemoteEnv) (fd : FormData)
    (imageFile : Bool) (it : SupplyItem) (items : List SupplyItem)
    (hval : validateForSubmit fd = true)
    (hupd : env.updateResult = Except.ok none) :
    (handleSaveItem env fd imageFile (some it) items).items =
      items.map (fun i =>
        if i.id = (mergeFallback fd it).id then mergeFallback fd it else i) ∧
    (mergeFallback fd it).id = it.id ∧
    (fd.name = none → (mergeFallback fd it).name = it.name) ∧
    (fd.description = none → (mergeFallback fd it).description = it.description) ∧
    (fd.lotNumber = none → (mergeFallback fd it).lotNumber = it.lotNumber) ∧
    (fd.expiresOn = none → (mergeFallback fd it).expiresOn = it.expiresOn) ∧
    (fd.quantity = none → (mergeFallback fd it).quantity = it.quantity) ∧
    (fd.imageUrl = none → (mergeFallback fd it).imageUrl = it.imageUrl) ∧
    (fd.isExpired = none → (mergeFallback fd it).isExpired = it.isExpired) ∧
    (fd.typeOfSupply = none → (mergeFallback fd it).typeOfSupply = it.typeOfSupply) ∧
    (fd.palletLocation = none → (mergeFallback fd it).palletLocation = it.palletLocation) ∧
    (fd.company = none → (mergeFallback fd it).company = it.company) ∧
    (fd.cardboardBoxesPerPallet = none →
      (mergeFallback fd it).cardboardBoxesPerPallet = it.cardboardBoxesPerPallet) ∧
    (fd.unitBoxesPerCardboard = none →
      (mergeFallback fd it).unitBoxesPerCardboard = it.unitBoxesPerCardboard) ∧
    (fd.unitsPerBox = none → (mergeFallback fd it).unitsPerBox = it.unitsPerBox) ∧
    (fd.weightPerCardboardBox = none →
      (mergeFallback fd it).weightPerCardboardBox = it.weightPerCardboardBox) ∧
    (fd.dimensionsCardboardBox = none →
      (mergeFallback fd it).dimensionsCardboardBox = it.dimensionsCardboardBox) ∧
    (fd.costPerUnitBox = none → (mergeFallback fd it).costPerUnitBox = it.costPerUnitBox) ∧
    (fd.costPerCardboardBox = none →
      (mergeFallback fd it).costPerCardboardBox = it.costPerCardboardBox) ∧
    (fd.relevantLink = none → (mergeFallback fd it).relevantLink = it.relevantLink) ∧
    (fd.otherNotes = none → (mergeFallback fd it).otherNotes = it.otherNotes) := by
  constructor
  · cases imageFile <;> cases hup : env.uploadResult <;>
      simp [handleSaveItem, hval, hupd, hup]
  refine ⟨rfl, ?_, ?_, ?_, ?_, ?_, ?_, ?_, ?_, ?_, ?_, ?_, ?_, ?_, ?_, ?_, ?_, ?_, ?_, ?_⟩ <;>
    (intro h; simp [mergeFallback, h, jsOrStr])

/-- C10 witness: the fallback merge evaluated on the concrete fixtures, with
the fields left undefined by the draft keeping their pre-edit values. -/
theorem C10_fallback_merge_keeps_unset_fields_witness :
    validateForSubmit fd0 = true ∧
    (handleSaveItem envOkNone fd0 false (some item0) [item0]).items =
      [item0].map (fun i =>
        if i.id = (mergeFallback fd0 item0).id then mergeFallback fd0 item0 else i) ∧
    (mergeFallback fd0 item0).id = item0.id ∧
    (mergeFallback fd0 item0).description = item0.description :=
  ⟨by decide,
    (C10_fallback_merge_keeps_unset_fields envOkNone fd0 false item0 [item0]
      (by decide) rfl).1,
    (C10_fallback_merge_keeps_unset_fields envOkNone fd0 false item0 [item0]
      (by decide) rfl).2.1,
    (C10_fallback_merge_keeps_unset_fields envOkNone fd0 false item0 [item0]
      (by decide) rfl).2.2.2.1 rfl⟩
